import Mathlib

/-!
Verification of the HTTP boundary of the throttle semaphore service.

The repository consists of `error.rs` (the `ThrottleError` enum) and
`semaphore_service.rs` (the actix-web handlers). The core engine (`State`)
is external to these files, so every handler is embedded parametrically
over the core call it makes: the core is passed in as a function argument.
In this pure model, a handler "does not invoke" a core call exactly when
its result is the same for every such function.

Conventions of the embedding:
- `i64` payloads are `Int`; `u32` amounts are `Nat`.
- `Duration` values are abstract `Nat` (milliseconds where it matters:
  `Duration::from_millis n` is `n`).
- A Rust `HashMap` that the handler only consumes through `.iter()` is a
  `List` of key/value pairs in iteration order; Rust's `HashMap` iteration
  order is not a function of the map contents, so the list order is an
  arbitrary parameter.
- `actix_web::http::StatusCode` values are their numeric codes as `Nat`.
-/

namespace Throttle

/-- `ThrottleError` from `error.rs`: errors which can occur interacting
with server state. `ForeverPending` is the one structured variant, with
payload fields `asked` and `max` (both `i64` in the source). -/
inductive ThrottleError : Type where
  | UnknownSemaphore : ThrottleError
  | UnknownPeer : ThrottleError
  | ForeverPending (asked : Int) (max : Int) : ThrottleError
  | Deadlock : ThrottleError
  | NotImplemented : ThrottleError
deriving DecidableEq, Repr

/-- `impl ResponseError for ThrottleError` in `semaphore_service.rs`,
method `status_code`: the HTTP status code each error maps to. -/
def ThrottleError.status_code : ThrottleError → Nat
  | .UnknownPeer => 400
  | .UnknownSemaphore => 400
  | .ForeverPending _ _ => 409
  | .Deadlock => 409
  | .NotImplemented => 501

/-- Body of an `HttpResponse` as the handlers build it: either the peer id
serialized as JSON, a JSON string message, or the display of an error. -/
inductive RespBody : Type where
  | jsonPeer (id : Nat) : RespBody
  | jsonMsg (s : String) : RespBody
  | errBody (e : ThrottleError) : RespBody
deriving DecidableEq, Repr

/-- An `actix_web::HttpResponse` reduced to its observable status and body. -/
structure HttpResponse : Type where
  status : Nat
  body : RespBody
deriving DecidableEq, Repr

/-- The `release` handler (`DELETE /peers/{id}`): the core's
`state.release` result is the Bool argument. Both branches answer 200. -/
def release (coreReleased : Bool) : HttpResponse :=
  if coreReleased then
    ⟨200, .jsonMsg "Peer released"⟩
  else
    ⟨200, .jsonMsg "Peer not found"⟩

/-- The `acquire` handler (`PUT /peer/{id}/{semaphore}`), given the result
of `state.acquire`: `Ok(true)` answers 200 with the peer id, `Ok(false)`
answers 202 with the peer id, and an error is turned into a response via
`HttpResponse::from_error`, whose status is `ResponseError::status_code`. -/
def acquire (peer_id : Nat) (coreResult : Except ThrottleError Bool) : HttpResponse :=
  match coreResult with
  | .ok true => ⟨200, .jsonPeer peer_id⟩
  | .ok false => ⟨202, .jsonPeer peer_id⟩
  | .error e => ⟨e.status_code, .errBody e⟩

/-- The JSON body of `POST /restore`: `{expires_in, peer_id, pending}`.
`pending` is a `HashMap<String, u32>` held as its iteration sequence. -/
structure Restore : Type where
  expires_in : Nat
  peer_id : Nat
  pending : List (String × Nat)

/-- The `restore` handler (`POST /restore`): takes the first entry yielded
by `pending.iter()`, failing with `NotImplemented` only when there is none,
then calls `state.restore_pending(peer_id, expires_in, semaphore, count)`.
The core call is the function argument `core`. -/
def restore (body : Restore)
    (core : Nat → Nat → String → Nat → Except ThrottleError Bool) :
    Except ThrottleError Bool :=
  match body.pending with
  | [] => .error .NotImplemented
  | (semaphore, count) :: _ => core body.peer_id body.expires_in semaphore count

/-- The JSON body of `PUT /peers/{id}`: `{active, expires_in}`, where
`active` is a `HashMap<String, u32>` held as its iteration sequence. -/
structure ActiveLeases : Type where
  active : List (String × Nat)
  expires_in : Nat

/-- Method `ActiveLeases::active` in the source (renamed here because the
field already carries the name): `self.active.iter().next()`, the first
entry of the map's iteration sequence, if any. -/
def ActiveLeases.activePair (b : ActiveLeases) : Option (String × Nat) :=
  b.active.head?

/-- The `put_peer` handler (`PUT /peers/{id}`): if the body has a first
active lease, forward it to `state.heartbeat_for_active_peer` (the `core`
argument) and propagate its error; otherwise only log a warning. Either
way the success answer is the string `"Ok"`. -/
def put_peer (lease_id : Nat) (body : ActiveLeases)
    (core : Nat → String → Nat → Nat → Except ThrottleError Unit) :
    Except ThrottleError String :=
  match body.activePair with
  | some (semaphore, amount) =>
    match core lease_id semaphore amount body.expires_in with
    | .ok _ => .ok "Ok"
    | .error e => .error e
  | none => .ok "Ok"

/-- The `block_until_acquired` handler (`POST /peers/{id}/block_until_acquired`):
`unblock_after = Duration::from_millis(query.timeout_ms.unwrap_or(0))`,
then `state.block_until_acquired(peer_id, expires_in, unblock_after)`.
The core call is the `core` argument; durations are in milliseconds. -/
def block_until_acquired (peer_id : Nat) (timeout_ms : Option Nat)
    (expires_in : Nat) (core : Nat → Nat → Nat → Except ThrottleError Bool) :
    Except ThrottleError Bool :=
  let unblock_after := timeout_ms.getD 0
  core peer_id expires_in unblock_after

/-- C1: every `ThrottleError` maps at the boundary to exactly the status
code of the policy: `UnknownPeer` and `UnknownSemaphore` to 400,
`ForeverPending` and `Deadlock` to 409, `NotImplemented` to 501. -/
theorem status_code_policy :
    ThrottleError.UnknownPeer.status_code = 400 ∧
    ThrottleError.UnknownSemaphore.status_code = 400 ∧
    (∀ a m : Int, (ThrottleError.ForeverPending a m).status_code = 409) ∧
    ThrottleError.Deadlock.status_code = 409 ∧
    ThrottleError.NotImplemented.status_code = 501 :=
  ⟨rfl, rfl, fun _ _ => rfl, rfl, rfl⟩

/-- C2 counterexample: a `/restore` body whose pending map has two entries
is *not* rejected with `NotImplemented`; the handler invokes the core
(`restore_pending`) — its answer tracks the core's answer — on the first
iterator entry. -/
theorem restore_multi_entry_not_rejected :
    restore ⟨60, 7, [("a", 1), ("b", 2)]⟩ (fun _ _ _ _ => .ok true) = .ok true ∧
    restore ⟨60, 7, [("a", 1), ("b", 2)]⟩ (fun _ _ _ _ => .ok false) = .ok false ∧
    restore ⟨60, 7, [("a", 1), ("b", 2)]⟩ (fun _ _ _ _ => .ok true) ≠
      .error ThrottleError.NotImplemented := by
  refine ⟨rfl, rfl, ?_⟩
  intro h
  exact Except.noConfusion h

/-- C2 amended: a `/restore` request whose pending map is non-empty —
including one with two or more entries — is forwarded to `restore_pending`
with the first entry yielded by the map's iterator, and the handler returns
whatever the core returns; only the empty map is rejected. -/
theorem restore_forwards_first_pending_entry (e p : Nat) (s : String) (c : Nat)
    (rest : List (String × Nat))
    (core : Nat → Nat → String → Nat → Except ThrottleError Bool) :
    restore ⟨e, p, (s, c) :: rest⟩ core = core p e s c :=
  rfl

/-- C3: a `/restore` request whose pending map is empty yields
`NotImplemented` (status 501) for every possible core, i.e. without
`restore_pending` ever being consulted. -/
theorem restore_empty_pending_not_implemented (e p : Nat)
    (core : Nat → Nat → String → Nat → Except ThrottleError Bool) :
    restore ⟨e, p, []⟩ core = .error ThrottleError.NotImplemented ∧
    ThrottleError.NotImplemented.status_code = 501 :=
  ⟨rfl, rfl⟩

/-- C4: the `acquire` handler answers 200 on `Ok(true)` (granted), 202 on
`Ok(false)` (queued), and on an error the status the error's own
`status_code` assigns — 400 for unknown peer/semaphore, 409 for
deadlock/forever-pending. -/
theorem acquire_status_mapping (id : Nat) :
    (acquire id (.ok true)).status = 200 ∧
    (acquire id (.ok false)).status = 202 ∧
    (∀ e : ThrottleError, (acquire id (.error e)).status = e.status_code) ∧
    (acquire id (.error .UnknownPeer)).status = 400 ∧
    (acquire id (.error .UnknownSemaphore)).status = 400 ∧
    (acquire id (.error .Deadlock)).status = 409 ∧
    (∀ a m : Int, (acquire id (.error (.ForeverPending a m))).status = 409) :=
  ⟨rfl, rfl, fun _ => rfl, rfl, rfl, rfl, fun _ _ => rfl⟩

/-- C5: the `release` handler answers 200 whether or not the core reports
the peer existed; it never produces an error status. -/
theorem release_always_200 (coreReleased : Bool) :
    (release coreReleased).status = 200 := by
  cases coreReleased <;> rfl

/-- C6 counterexample: the error-to-status mapping is not injective:
`UnknownPeer` and `UnknownSemaphore` are distinct errors sharing status
400 (and `Deadlock`/`ForeverPending` likewise share 409). -/
theorem status_code_not_injective :
    (ThrottleError.UnknownPeer.status_code =
        ThrottleError.UnknownSemaphore.status_code ∧
      ThrottleError.UnknownPeer ≠ ThrottleError.UnknownSemaphore) ∧
    ¬ Function.Injective ThrottleError.status_code := by
  refine ⟨⟨rfl, by decide⟩, fun h => ?_⟩
  have h2 := @h ThrottleError.UnknownPeer ThrottleError.UnknownSemaphore rfl
  exact absurd h2 (by decide)

/-- C6 amended: the status codes distinguish error *categories* rather
than individual kinds: every error surfaces as one of 400, 409 or 501;
the two unknown-entity errors share 400, the two conflict errors share
409, `NotImplemented` alone gets 501, and the three category codes are
pairwise distinct. -/
theorem status_code_distinguishes_categories :
    (∀ e : ThrottleError,
      e.status_code = 400 ∨ e.status_code = 409 ∨ e.status_code = 501) ∧
    ThrottleError.UnknownPeer.status_code =
      ThrottleError.UnknownSemaphore.status_code ∧
    (∀ a m : Int, (ThrottleError.ForeverPending a m).status_code =
      ThrottleError.Deadlock.status_code) ∧
    ThrottleError.UnknownPeer.status_code ≠
      ThrottleError.Deadlock.status_code ∧
    ThrottleError.UnknownPeer.status_code ≠
      ThrottleError.NotImplemented.status_code ∧
    ThrottleError.Deadlock.status_code ≠
      ThrottleError.NotImplemented.status_code := by
  refine ⟨fun e => ?_, rfl, fun _ _ => rfl, by decide, by decide, by decide⟩
  cases e <;> simp [ThrottleError.status_code]

/-- C7: `ForeverPending` is a structured variant carrying exactly the two
payload fields `asked` and `max`: two `ForeverPending` values are equal
precisely when both payload fields agree, so a rejection built from
amount `a` and capacity `m` reports `asked = a` and `max = m`. -/
theorem forever_pending_payload (a m a' m' : Int) :
    ThrottleError.ForeverPending a m = ThrottleError.ForeverPending a' m' ↔
      a = a' ∧ m = m' := by
  constructor
  · intro h
    injection h with h1 h2
    exact ⟨h1, h2⟩
  · rintro ⟨rfl, rfl⟩
    rfl

/-- C8: a `PUT /peers/{id}` request whose `active` map is empty answers
`Ok` for every possible core heartbeat — the core is never consulted, so
no state changes and no `UnknownPeer` can arise even for an absent id. -/
theorem put_peer_empty_active_ok (id e : Nat)
    (core : Nat → String → Nat → Nat → Except ThrottleError Unit) :
    put_peer id ⟨[], e⟩ core = .ok "Ok" :=
  rfl

/-- C9: a `PUT /peers/{id}` request with a non-empty `active` map forwards
exactly the first iterator entry to the core heartbeat (the response is a
function of that single call), the remaining entries are ignored (the
response is independent of the tail), and which entry is forwarded depends
on the map's iteration order, not only on its contents: two orderings of
the same two-entry map lead to different forwarded pairs. -/
theorem put_peer_forwards_first_entry (id e : Nat) (s : String) (a : Nat)
    (rest rest' : List (String × Nat))
    (core : Nat → String → Nat → Nat → Except ThrottleError Unit) :
    put_peer id ⟨(s, a) :: rest, e⟩ core =
      Except.map (fun _ => "Ok") (core id s a e) ∧
    put_peer id ⟨(s, a) :: rest, e⟩ core = put_peer id ⟨(s, a) :: rest', e⟩ core ∧
    List.Perm [(("a" : String), 1), ("b", 2)] [("b", 2), ("a", 1)] ∧
    put_peer 0 ⟨[("a", 1), ("b", 2)], 0⟩
        (fun _ _ x _ => .error (.ForeverPending x 0)) =
      .error (.ForeverPending 1 0) ∧
    put_peer 0 ⟨[("b", 2), ("a", 1)], 0⟩
        (fun _ _ x _ => .error (.ForeverPending x 0)) =
      .error (.ForeverPending 2 0) ∧
    Except.error (α := String) (ThrottleError.ForeverPending 1 0) ≠
      .error (.ForeverPending 2 0) := by
  refine ⟨?_, rfl, List.Perm.swap ("b", 2) ("a", 1) [], rfl, rfl, ?_⟩
  · cases hc : core id s a e with
    | ok u => simp [put_peer, ActiveLeases.activePair, hc, Except.map]
    | error err => simp [put_peer, ActiveLeases.activePair, hc, Except.map]
  · intro h
    injection h with h2
    injection h2 with h3 h4
    exact absurd h3 (by decide)

/-- C10: when the `timeout_ms` query parameter is absent, the
`block_until_acquired` handler calls the core with a `max_wait` of zero
milliseconds — a missing timeout is an immediate, non-waiting poll. -/
theorem block_until_acquired_default_timeout (id e : Nat)
    (core : Nat → Nat → Nat → Except ThrottleError Bool) :
    block_until_acquired id none e core = core id e 0 :=
  rfl

end Throttle
